import Mathlib

/-!
Verification of the fake-news-detection explanation subsystem.

This file shallowly embeds the classification / explanation pipeline of the
repository (config.py, src/pipeline.py, src/explainability.py, api/ml_api.py)
and settles the frozen claims about it.  Probabilities and scores are modelled
as rationals; the trained model, vectorizer and preprocessor are opaque
function fields of a Detector record, exactly as the explainer treats them.
-/

/-! ## Basic helpers -/

/-- Embedding of Python str.strip(): drop leading and trailing whitespace. -/
def pyStrip (s : String) : String :=
  String.mk (((s.data.dropWhile Char.isWhitespace).reverse.dropWhile
    Char.isWhitespace).reverse)

/-- Embedding of the Python slice s[:n]. -/
def pyTake (n : Nat) (s : String) : String := String.mk (s.data.take n)

/-- First index of the maximum of a list (running best index / value),
embedding numpy argmax, which keeps the first maximal index on ties. -/
def argmaxAux : List ℚ → Nat → Nat → ℚ → Nat
  | [], _, best, _ => best
  | x :: xs, i, best, bv =>
      if bv < x then argmaxAux xs (i + 1) i x else argmaxAux xs (i + 1) best bv

/-- Embedding of numpy argmax on a probability vector; 0 on the empty list
(where numpy would raise). -/
def argmax : List ℚ → Nat
  | [] => 0
  | x :: xs => argmaxAux xs 1 0 x

/-- Embedding of Python max over a list of floats; 0 on the empty list
(where Python would raise ValueError). -/
def listMax : List ℚ → ℚ
  | [] => 0
  | x :: xs => xs.foldl max x

/-- Round a rational to the nearest integer, ties to even
(the rounding used by Python round). -/
def roundHalfEven (x : ℚ) : ℤ :=
  let n := ⌊x⌋
  let f := x - (n : ℚ)
  if f < 1 / 2 then n
  else if 1 / 2 < f then n + 1
  else if n % 2 = 0 then n else n + 1

/-- Embedding of Python round(x, 4). -/
def round4 (x : ℚ) : ℚ := (roundHalfEven (x * 10000) : ℚ) / 10000

/-- Row j of a one-hot matrix: 1.0 at index p, 0 elsewhere
(proba[i, int(pred)] = 1.0 over a zero row of width k). -/
def oneHotRow (k p : Nat) : List ℚ :=
  (List.range k).map (fun j => if j = p then 1 else 0)

/-- One-hot probability matrix built from a prediction vector, as in the
predict_proba fallbacks of models.py and explainability.py. -/
def oneHotMatrix (preds : List Nat) (k : Nat) : List (List ℚ) :=
  preds.map (oneHotRow k)

/-- Number of distinct values in a list (embedding len(np.unique(...))). -/
def uniqueCount (preds : List Nat) : Nat := preds.dedup.length

/-! ## Data model (config.py, pipeline.py, explainability.py) -/

/-- Class labels, config.py line 77 (WELFake dataset: 0=Real, 1=Fake). -/
def CLASS_NAMES : List String := ["Real", "Fake"]

/-- The trained model as the explainer sees it: an opaque object that may or
may not expose predict_proba (the hasattr check), plus its predict and
predict_proba functions on a numeric feature matrix. -/
structure Model where
  hasPredictProba : Bool
  predict_proba : List (List ℚ) → List (List ℚ)
  predict : List (List ℚ) → List Nat

/-- The deployed detector: preprocessor, vectorizer transform, wrapped model,
and the lime explainer viewed as the function text x num_features to the
as_list output for label 1 (get_word_importance default). -/
structure Detector where
  preprocess : String → String
  transform : List String → List (List ℚ)
  model : Model
  limeAsList : String → Int → List (String × ℚ)

/-- ModelTrainer.predict_proba (models.py lines 135-156): delegate to the
inner model when it has predict_proba, otherwise one-hot rows with
n_classes = len(np.unique(predictions)). -/
def trainerPredictProba (m : Model) (X : List (List ℚ)) : List (List ℚ) :=
  if m.hasPredictProba then m.predict_proba X
  else oneHotMatrix (m.predict X) (uniqueCount (m.predict X))

/-- TextExplainerPipeline._predict_fn (explainability.py lines 397-423):
preprocess, vectorize, then predict_proba if available, else a one-hot
matrix of width len(self.class_names); the deployed pipeline receives
CLASS_NAMES.  No shape or normalization check is performed. -/
def predictFn (d : Detector) (texts : List String) : List (List ℚ) :=
  let X := d.transform (texts.map d.preprocess)
  if d.model.hasPredictProba then d.model.predict_proba X
  else oneHotMatrix (d.model.predict X) CLASS_NAMES.length

/-- Result dictionary of FakeNewsDetector.classify. -/
structure ClassifyResult where
  text : String
  prediction : String
  confidence : ℚ
  probabilities : List (String × ℚ)
deriving DecidableEq

/-- FakeNewsDetector.classify (pipeline.py lines 237-260): the predicted name
comes from model.predict, the confidence is max of the predict_proba row. -/
def classify (d : Detector) (text : String) : ClassifyResult :=
  let X := d.transform [d.preprocess text]
  let preds := d.model.predict X
  let probs := (trainerPredictProba d.model X).headD []
  { text := if 200 < text.length then pyTake 200 text ++ "..." else text
    prediction := CLASS_NAMES.getD (preds.headD 0) ""
    confidence := listMax probs
    probabilities := CLASS_NAMES.zip probs }

/-- Result dictionary of TextExplainerPipeline.predict_and_explain. -/
structure ExplainResult where
  predicted_class : String
  confidence : ℚ
  probabilities : List (String × ℚ)
  word_importance : List (String × ℚ)
deriving DecidableEq

/-- TextExplainerPipeline.predict_and_explain (explainability.py lines
444-476): probabilities of the original document via _predict_fn, predicted
class at the argmax, confidence the max, word importance from the lime
explanation (as_list at label 1). -/
def predict_and_explain (d : Detector) (text : String) (numFeatures : Int) :
    ExplainResult :=
  let probs := (predictFn d [text]).headD []
  { predicted_class := CLASS_NAMES.getD (argmax probs) ""
    confidence := listMax probs
    probabilities := CLASS_NAMES.zip probs
    word_importance := d.limeAsList text numFeatures }

/-- Configuration record of a LimeExplainer instance. -/
structure LimeExplainerCfg where
  class_names : List String
  num_features : Nat
  num_samples : Nat
deriving DecidableEq

/-- LimeExplainer.__init__ (explainability.py lines 19-36): class_names
defaults to Fake, Real when the caller passes none; num_features 10,
num_samples 5000. -/
def mkLimeExplainer (classNames : Option (List String)) : LimeExplainerCfg :=
  { class_names := classNames.getD ["Fake", "Real"]
    num_features := 10
    num_samples := 5000 }

/-- TextExplainerPipeline.__init__ (explainability.py lines 375-395): resolves
its own class_names with the same default and constructs the LimeExplainer
with them. -/
def mkPipelineLimeExplainer (classNames : Option (List String)) :
    LimeExplainerCfg :=
  mkLimeExplainer (some (classNames.getD ["Fake", "Real"]))

/-! ## HTTP layer (api/ml_api.py) -/

/-- Outcome of a Flask handler: a success payload or an error status + message. -/
inductive ApiResp (α : Type) where
  | ok : α → ApiResp α
  | err : Nat → String → ApiResp α
deriving DecidableEq

/-- Success test on a handler outcome. -/
def ApiResp.isOk {α : Type} : ApiResp α → Bool
  | .ok _ => true
  | .err _ _ => false

/-- Display direction attached to a word score
(ml_api.py line 158: Real if score > 0 else Fake). -/
def directionLabel (score : ℚ) : String :=
  if 0 < score then "Real" else "Fake"

/-- Display direction in the text report
(explainability.py line 527 in generate_report). -/
def reportDirection (score : ℚ) : String :=
  if 0 < score then "→ Real" else "→ Fake"

/-- JSON payload of a successful /api/classify response. -/
structure ClassifyResponse where
  prediction : String
  confidence : ℚ
  probabilities : List (String × ℚ)
deriving DecidableEq

/-- classify_news (ml_api.py lines 53-105): missing text and stripped length
below 10 are client errors; otherwise the classify result with floats rounded
to 4 decimals. -/
def classify_news (d : Detector) (textField : Option String) :
    ApiResp ClassifyResponse :=
  match textField with
  | none => .err 400 "Missing required field: text"
  | some raw =>
      let text := pyStrip raw
      if text.length < 10 then
        .err 400 "Text must be at least 10 characters long"
      else
        let r := classify d text
        .ok { prediction := r.prediction
              confidence := round4 r.confidence
              probabilities := r.probabilities.map (fun p => (p.1, round4 p.2)) }

/-- One entry of the explanation list in a /api/explain response. -/
structure ExplanationEntry where
  word : String
  score : ℚ
  direction : String
deriving DecidableEq

/-- JSON payload of a successful /api/explain response. -/
structure ExplainResponse where
  prediction : String
  confidence : ℚ
  probabilities : List (String × ℚ)
  explanation : List ExplanationEntry
deriving DecidableEq

/-- explain_prediction (ml_api.py lines 108-176): same text validation as
classify_news; num_features defaults to 10 and is passed through unchecked;
each word score is rounded to 4 decimals and labelled by its sign. -/
def explain_prediction (d : Detector) (textField : Option String)
    (numFeatures : Option Int) : ApiResp ExplainResponse :=
  match textField with
  | none => .err 400 "Missing required field: text"
  | some raw =>
      let text := pyStrip raw
      if text.length < 10 then
        .err 400 "Text must be at least 10 characters long"
      else
        let r := predict_and_explain d text (numFeatures.getD 10)
        .ok { prediction := r.predicted_class
              confidence := round4 r.confidence
              probabilities := r.probabilities.map (fun p => (p.1, round4 p.2))
              explanation := r.word_importance.map (fun ws =>
                { word := ws.1
                  score := round4 ws.2
                  direction := directionLabel ws.2 }) }

/-- One element of the texts array of a batch request: a JSON string, or a
non-string value carried by its str() rendering. -/
inductive BatchItem where
  | str : String → BatchItem
  | nonString : String → BatchItem
deriving DecidableEq

/-- The isinstance(text, str) and len(text) >= 10 test of batch_classify
(raw length, not stripped). -/
def isValidBatchItem : BatchItem → Bool
  | .str s => decide (10 ≤ s.length)
  | .nonString _ => false

/-- One result entry of a batch-classify response. -/
structure BatchEntry where
  text : String
  prediction : Option String
  confidence : Option ℚ
  error : Option String
deriving DecidableEq

/-- Per-item work of batch_classify (ml_api.py lines 222-236): valid strings
are classified, everything else gets a null prediction and an error note. -/
def batchEntry (d : Detector) : BatchItem → BatchEntry
  | .str s =>
      if 10 ≤ s.length then
        let r := classify d s
        { text := if 100 < s.length then pyTake 100 s ++ "..." else s
          prediction := some r.prediction
          confidence := some (round4 r.confidence)
          error := none }
      else
        { text := pyTake 100 s
          prediction := none
          confidence := none
          error := some "Invalid or too short text" }
  | .nonString rep =>
      { text := pyTake 100 rep
        prediction := none
        confidence := none
        error := some "Invalid or too short text" }

/-- JSON payload of a successful /api/batch-classify response. -/
structure BatchResponse where
  results : List BatchEntry
  total : Nat
deriving DecidableEq

/-- batch_classify (ml_api.py lines 179-249): missing field, empty or
non-list texts, and more than 100 items are client errors; otherwise one
result entry per input item, in order. -/
def batch_classify (d : Detector) (texts : Option (List BatchItem)) :
    ApiResp BatchResponse :=
  match texts with
  | none => .err 400 "Missing required field: texts"
  | some items =>
      if items.length = 0 then .err 400 "texts must be a non-empty array"
      else if 100 < items.length then .err 400 "Maximum 100 articles per batch"
      else .ok { results := items.map (batchEntry d), total := items.length }

/-! ## Spec-modelled components

The perturbation sampler and the top-k explanation assembler live in the
external lime library; the repository only wraps them (LimeExplainer,
LimeExplanation).  The two definitions below are modelled from the spec. -/

/-- Space-splitting worker over the character list. -/
def splitWsAux : List Char → List Char → List String
  | [], acc => if acc.isEmpty then [] else [String.mk acc.reverse]
  | c :: cs, acc =>
      if c = ' ' then
        if acc.isEmpty then splitWsAux cs []
        else String.mk acc.reverse :: splitWsAux cs []
      else splitWsAux cs (c :: acc)

/-- Whitespace tokens of a document, empty tokens dropped. -/
def tokenize (doc : String) : List String := splitWsAux doc.data []

/-- Distinct elements in first-occurrence order. -/
def firstDedup (l : List String) : List String :=
  l.foldl (fun acc x => if x ∈ acc then acc else acc ++ [x]) []

/-- Document vocabulary: distinct word tokens in first-occurrence order. -/
def vocab (doc : String) : List String := firstDedup (tokenize doc)

/-- Index of a string in a list (0-based, length when absent). -/
def idxOfStr (x : String) : List String → Nat
  | [] => 0
  | y :: ys => if y = x then 0 else idxOfStr x ys + 1

/-- One step of a 32-bit linear congruential generator. -/
def lcgNext (s : Nat) : Nat := (1664525 * s + 1013904223) % 4294967296

/-- Draw a value below the bound, advancing the generator state. -/
def randBelow (s bound : Nat) : Nat × Nat :=
  let s2 := lcgNext s
  (s2 % bound, s2)

/-- Draw k distinct indices from the available pool, threading the state. -/
def pickDistinct : Nat → List Nat → Nat → List Nat × Nat
  | 0, _, st => ([], st)
  | k + 1, avail, st =>
      if avail.length = 0 then ([], st)
      else
        let (i, st2) := randBelow st avail.length
        let x := avail.getD i 0
        let (more, st3) := pickDistinct k (avail.eraseIdx i) st2
        (x :: more, st3)

/-- Generate the non-anchor masks: for each sample draw a removal count s
uniform in the range 1..d, then s distinct feature indices to zero. -/
def genMasks (d : Nat) : Nat → Nat → List (List Nat) × Nat
  | 0, st => ([], st)
  | k + 1, st =>
      let (s0, st2) := randBelow st d
      let (zeroed, st3) := pickDistinct (s0 + 1) (List.range d) st2
      let mask := (List.range d).map (fun i => if i ∈ zeroed then 0 else 1)
      let (more, st4) := genMasks d k st3
      (mask :: more, st4)

/-- A sampling run: aligned binary masks and reconstructed texts. -/
structure SampleBatch where
  masks : List (List Nat)
  texts : List String
deriving DecidableEq

/-- Rebuild the text for a mask: keep each original token whose feature bit
is 1, preserving order. -/
def reconstruct (doc : String) (vs : List String) (mask : List Nat) : String :=
  String.intercalate " "
    ((tokenize doc).filter (fun t => mask.getD (idxOfStr t vs) 0 = 1))

/-- Modelled from the spec: the perturbation sampler of spec section 4.1 is
implemented by the external lime library (the repository only wraps it in
LimeExplainer.explain_instance), so it is reconstructed here from the spec
contract sample(document, num_samples, rng_seed): the all-ones anchor mask
comes first, each further mask zeroes a uniformly drawn number of uniformly
chosen distinct features, texts are rebuilt by dropping masked words, and a
document with zero distinct features is an InvalidInputError. -/
def sample (doc : String) (numSamples : Nat) (seed : Nat) :
    Except String SampleBatch :=
  let vs := vocab doc
  let d := vs.length
  if d = 0 then .error "InvalidInputError"
  else
    let (rest, _) := genMasks d (numSamples - 1) seed
    let masks := List.replicate d 1 :: rest
    .ok { masks := masks, texts := masks.map (reconstruct doc vs) }

/-- Insert before the first strictly smaller element (keeps earlier equals
first, so that a left fold over the input is a stable sort). -/
def insertDesc (gt : (String × ℚ) → (String × ℚ) → Bool)
    (x : String × ℚ) : List (String × ℚ) → List (String × ℚ)
  | [] => [x]
  | y :: ys => if gt x y then x :: y :: ys else y :: insertDesc gt x ys

/-- Stable insertion sort by a strict comparison. -/
def stableSortBy (gt : (String × ℚ) → (String × ℚ) → Bool)
    (l : List (String × ℚ)) : List (String × ℚ) :=
  l.foldl (fun acc x => insertDesc gt x acc) []

/-- Modelled from the spec: the explanation assembler top-k selection of spec
section 4.4 is implemented inside the external lime library (as_list), so it
is reconstructed here from the spec contract: sort the (word, coefficient)
pairs by absolute coefficient, ties broken by lower vocabulary index
(stability of the sort), and take the first top_k. -/
def selectTopK (coefs : List (String × ℚ)) (topK : Nat) : List (String × ℚ) :=
  (stableSortBy (fun a b => decide (|b.2| < |a.2|)) coefs).take topK

/-! ## Helper lemmas -/

theorem insertDesc_length (gt : (String × ℚ) → (String × ℚ) → Bool)
    (x : String × ℚ) (l : List (String × ℚ)) :
    (insertDesc gt x l).length = l.length + 1 := by
  induction l with
  | nil => rfl
  | cons y ys ih =>
      simp only [insertDesc]
      split <;> simp [ih]

theorem stableSortBy_length (gt : (String × ℚ) → (String × ℚ) → Bool)
    (l : List (String × ℚ)) : (stableSortBy gt l).length = l.length := by
  suffices h : ∀ acc : List (String × ℚ),
      (l.foldl (fun acc x => insertDesc gt x acc) acc).length
        = acc.length + l.length by
    simpa [stableSortBy] using h []
  induction l with
  | nil => intro acc; simp
  | cons y ys ih =>
      intro acc
      simp only [List.foldl_cons, List.length_cons]
      rw [ih (insertDesc gt y acc), insertDesc_length]
      omega

theorem selectTopK_length (coefs : List (String × ℚ)) (topK : Nat) :
    (selectTopK coefs topK).length = min topK coefs.length := by
  simp [selectTopK, stableSortBy_length]

theorem foldl_max_le_init (l : List ℚ) (a : ℚ) : a ≤ l.foldl max a := by
  induction l generalizing a with
  | nil => exact le_refl a
  | cons y ys ih =>
      simp only [List.foldl_cons]
      exact le_trans (le_max_left a y) (ih (max a y))

theorem foldl_max_le_mem (l : List ℚ) (a x : ℚ) (hx : x ∈ l) :
    x ≤ l.foldl max a := by
  induction l generalizing a with
  | nil => cases hx
  | cons y ys ih =>
      simp only [List.foldl_cons]
      rcases List.mem_cons.mp hx with h | h
      · exact le_trans (h ▸ le_max_right a y) (foldl_max_le_init ys (max a y))
      · exact ih (max a y) h

theorem listMax_foldl_mem (l : List ℚ) (a : ℚ) :
    l.foldl max a = a ∨ l.foldl max a ∈ l := by
  induction l generalizing a with
  | nil => exact Or.inl rfl
  | cons y ys ih =>
      simp only [List.foldl_cons]
      rcases ih (max a y) with h | h
      · rcases le_total a y with hy | hy
        · exact Or.inr (by rw [h, max_eq_right hy]; exact List.mem_cons_self y ys)
        · exact Or.inl (by rw [h, max_eq_left hy])
      · exact Or.inr (List.mem_cons_of_mem _ h)

theorem listMax_is_max (l : List ℚ) (hl : l ≠ []) :
    listMax l ∈ l ∧ ∀ x ∈ l, x ≤ listMax l := by
  cases l with
  | nil => exact absurd rfl hl
  | cons y ys =>
      constructor
      · rcases listMax_foldl_mem ys y with h | h
        · simp [listMax, h]
        · simp [listMax, List.mem_cons_of_mem _ h]
      · intro x hx
        rcases List.mem_cons.mp hx with h | h
        · exact h ▸ foldl_max_le_init ys y
        · exact foldl_max_le_mem ys y x h

theorem oneHotRow_length (k p : Nat) : (oneHotRow k p).length = k := by
  simp [oneHotRow]

theorem oneHotRow_getD (k p j : Nat) (hj : j < k) :
    (oneHotRow k p).getD j 0 = if j = p then 1 else 0 := by
  rw [List.getD_eq_getElem?_getD]
  simp [oneHotRow, List.getElem?_map, List.getElem?_range, hj]

theorem oneHotRow_sum (k p : Nat) (hp : p < k) :
    (oneHotRow k p).sum = 1 := by
  induction k with
  | zero => omega
  | succ n ih =>
      rw [oneHotRow, List.range_succ, List.map_append, List.sum_append]
      rcases Nat.lt_or_ge p n with h | h
      · rw [← oneHotRow, ih h]
        simp [Nat.ne_of_gt h]
      · have hpn : p = n := by omega
        subst hpn
        have hz : ((List.range p).map
            (fun j => if j = p then (1 : ℚ) else 0)).sum = 0 := by
          apply List.sum_eq_zero
          intro x hx
          rcases List.mem_map.mp hx with ⟨j, hj, hjx⟩
          have hne : j ≠ p := by
            have := List.mem_range.mp hj; omega
          simpa [hne] using hjx.symm
        simp [hz]

/-! ## Concrete instances used to instantiate the theorems -/

/-- A small concrete detector: constant vectorizer, a model that predicts
class 0 but returns probabilities favouring class 1, and a fixed lime
output.  Models an SVC-style classifier whose predict and predict_proba
disagree (config.py enables svm with probability=True, where Platt scaling
makes exactly this possible). -/
def demoD : Detector :=
  { preprocess := fun s => s
    transform := fun ts => ts.map (fun _ => [1])
    model :=
      { hasPredictProba := true
        predict_proba := fun X => X.map (fun _ => [1/4, 3/4])
        predict := fun X => X.map (fun _ => 0) }
    limeAsList := fun _ _ => [("shocking", 1/2), ("study", -1/4)] }

/-- A detector whose model violates the classifier contract: one row
regardless of the batch size, and the row sums to 0.6. -/
def badD : Detector :=
  { preprocess := fun s => s
    transform := fun ts => ts.map (fun _ => [1])
    model :=
      { hasPredictProba := true
        predict_proba := fun _ => [[3/10, 3/10]]
        predict := fun X => X.map (fun _ => 0) }
    limeAsList := fun _ _ => [] }

/-- A detector whose model lacks predict_proba, always predicting class 1. -/
def noProbaD : Detector :=
  { preprocess := fun s => s
    transform := fun ts => ts.map (fun _ => [1])
    model :=
      { hasPredictProba := false
        predict_proba := fun _ => []
        predict := fun X => X.map (fun _ => 1) }
    limeAsList := fun _ _ => [] }

/-! ## Claim C4 -/

/-- C4 counterexample: the prediction function performs no contract check.
With a model returning a single row summing to 0.6 for a two-text batch,
predictFn proceeds and returns the malformed matrix (row count 1, not 2;
row sum off by far more than the 1e-3 tolerance) instead of failing with a
ClassifierContractError, which does not exist anywhere in the code. -/
theorem claim_C4_counterexample :
    predictFn badD ["first text here", "second text here"] = [[3/10, 3/10]] ∧
    ([[(3:ℚ)/10, 3/10]] : List (List ℚ)).length ≠ 2 ∧
    ¬ |([(3:ℚ)/10, 3/10]).sum - 1| ≤ 1/1000 := by
  refine ⟨by simp [predictFn, badD], by decide, by norm_num [abs_le]⟩

/-- C4 (amended): the classifier boundary output is not validated at all:
whenever the model exposes predict_proba, _predict_fn returns its matrix
unchanged, whatever its shape or row sums; malformed output propagates to
the explainer instead of raising a ClassifierContractError. -/
theorem claim_C4_theorem :
    ∀ (d : Detector) (texts : List String),
      d.model.hasPredictProba = true →
      predictFn d texts = d.model.predict_proba (d.transform (texts.map d.preprocess)) := by
  intro d texts h
  simp [predictFn, h]

/-- C4 witness: the pass-through theorem applied to the malformed model. -/
theorem claim_C4_witness :
    predictFn badD ["first text here", "second text here"]
      = badD.model.predict_proba
          (badD.transform (["first text here", "second text here"].map badD.preprocess)) :=
  claim_C4_theorem badD ["first text here", "second text here"] rfl

/-! ## Claim C5 -/

/-- C5: determinism of the sampling procedure.  The modelled sampler threads
an explicit generator state derived only from the seed, so two calls with the
same document, the same num_samples and the same seed return the same batch:
bit-identical mask lists and reconstructed text lists (equality of the
returned SampleBatch values). -/
theorem claim_C5_theorem :
    ∀ (doc₁ doc₂ : String) (n₁ n₂ s₁ s₂ : Nat),
      doc₁ = doc₂ → n₁ = n₂ → s₁ = s₂ →
      sample doc₁ n₁ s₁ = sample doc₂ n₂ s₂ := by
  intro doc₁ doc₂ n₁ n₂ s₁ s₂ h1 h2 h3
  rw [h1, h2, h3]

/-- C5 witness: two textually separate calls on a concrete document, sample
count and seed produce equal batches. -/
theorem claim_C5_witness :
    sample "the cat sat on the mat" 5 42 = sample "the cat sat on the mat" 5 42 :=
  claim_C5_theorem "the cat sat on the mat" "the cat sat on the mat" 5 5 42 42
    rfl rfl rfl

/-! ## Claim C6 -/

/-- C6 counterexample: top_k is not validated.  num_features = 0 (so
top_k <= 0) with a sufficiently long text is accepted: the explain handler
returns a success response instead of any InvalidInputError-class
rejection, passing 0 straight to the explainer. -/
theorem claim_C6_counterexample :
    ((some (0 : Int)).getD 10 ≤ 0) ∧
    (explain_prediction demoD (some "aaaaaaaaaaaa") (some 0)).isOk = true := by
  refine ⟨by norm_num, by decide⟩

/-- C6 (amended): the HTTP layer rejects every text whose stripped length is
below 10 characters (covering empty and whitespace-only documents, hence
every document with zero distinct features) with a 400 client error before
invoking the explainer; top_k <= 0 is not validated anywhere and flows to
the explainer unchecked. -/
theorem claim_C6_theorem :
    ∀ (d : Detector) (raw : String) (nf : Option Int),
      (pyStrip raw).length < 10 →
      explain_prediction d (some raw) nf
        = ApiResp.err 400 "Text must be at least 10 characters long" := by
  intro d raw nf h
  simp [explain_prediction, h]

/-- C6 witness: a whitespace-only document (zero distinct features) is
rejected with the 400 client error. -/
theorem claim_C6_witness :
    explain_prediction demoD (some "   ") none
      = ApiResp.err 400 "Text must be at least 10 characters long" :=
  claim_C6_theorem demoD "   " none (by decide)

/-! ## Claim C8 -/

/-- C8: the assembled word-importance list has length at most top_k, and
when top_k is at least the number d of distinct features it has exactly d
entries: no padding and no error. -/
theorem claim_C8_theorem :
    ∀ (coefs : List (String × ℚ)) (topK : Nat),
      (selectTopK coefs topK).length ≤ topK ∧
      (coefs.length ≤ topK → (selectTopK coefs topK).length = coefs.length) := by
  intro coefs topK
  constructor
  · rw [selectTopK_length]
    exact Nat.min_le_left _ _
  · intro h
    rw [selectTopK_length]
    exact Nat.min_eq_right h

/-- C8 witness: two coefficients with top_k = 5 give exactly two entries. -/
theorem claim_C8_witness :
    (selectTopK [("a", 1), ("b", 2)] 5).length = 2 :=
  (claim_C8_theorem [("a", 1), ("b", 2)] 5).2 (by decide)

/-! ## Claim C1 -/

/-- C1 counterexample: with class order Real, Fake and target label 1 the
target class being explained is Fake, yet a positive score is displayed as
pushing toward Real: the direction computed for the positive score 1 is
Real, not Fake. -/
theorem claim_C1_counterexample :
    CLASS_NAMES.getD 1 "" = "Fake" ∧ (0:ℚ) < 1 ∧
    directionLabel 1 = "Real" ∧ directionLabel 1 ≠ "Fake" := by
  refine ⟨rfl, by norm_num, ?_, ?_⟩
  · norm_num [directionLabel]
  · norm_num [directionLabel]
    decide

/-- C1 (amended): the displayed direction is independent of the target
class: a positive score is labelled Real and a nonpositive score Fake, both
in the API explanation entries and in the text report, even though the
scores come from the lime explanation of label 1 (Fake). -/
theorem claim_C1_theorem :
    (∀ s : ℚ, 0 < s → directionLabel s = "Real" ∧ reportDirection s = "→ Real")
    ∧ (∀ s : ℚ, s ≤ 0 → directionLabel s = "Fake" ∧ reportDirection s = "→ Fake")
    ∧ (∀ (d : Detector) (raw : String) (nf : Option Int) (r : ExplainResponse),
        explain_prediction d (some raw) nf = ApiResp.ok r →
        r.explanation
          = ((predict_and_explain d (pyStrip raw) (nf.getD 10)).word_importance).map
              (fun ws => ⟨ws.1, round4 ws.2, directionLabel ws.2⟩)) := by
  refine ⟨?_, ?_, ?_⟩
  · intro s hs
    constructor <;> simp [directionLabel, reportDirection, hs]
  · intro s hs
    have h2 : ¬ 0 < s := not_lt.mpr hs
    constructor <;> simp [directionLabel, reportDirection, h2]
  · intro d raw nf r h
    simp only [explain_prediction] at h
    split at h
    · exact ApiResp.noConfusion h
    · cases h
      rfl

/-- Concrete response of the explain handler on demoD, used as witness data. -/
def c1resp : ExplainResponse :=
  { prediction := "Fake"
    confidence := 3/4
    probabilities := [("Real", 1/4), ("Fake", 3/4)]
    explanation := [⟨"shocking", 1/2, "Real"⟩, ⟨"study", -1/4, "Fake"⟩] }

/-- C1 witness: the amended direction behaviour at concrete scores and a
concrete successful explain call. -/
theorem claim_C1_witness :
    (directionLabel (1/2) = "Real" ∧ reportDirection (1/2) = "→ Real")
    ∧ (directionLabel (-1/4) = "Fake" ∧ reportDirection (-1/4) = "→ Fake")
    ∧ c1resp.explanation
        = ((predict_and_explain demoD (pyStrip "aaaaaaaaaaaa")
              ((some (10:Int)).getD 10)).word_importance).map
            (fun ws => ⟨ws.1, round4 ws.2, directionLabel ws.2⟩) :=
  ⟨claim_C1_theorem.1 (1/2) (by norm_num),
   claim_C1_theorem.2.1 (-1/4) (by norm_num),
   claim_C1_theorem.2.2 demoD "aaaaaaaaaaaa" (some 10) c1resp
     (by with_unfolding_all rfl)⟩

/-! ## Claim C2 -/

/-- C2 counterexample: the default-constructed LimeExplainer does not use
the Real, Fake order: its class_names default to Fake, Real, so its index 1
is Real, not Fake. -/
theorem claim_C2_counterexample :
    (mkLimeExplainer none).class_names = ["Fake", "Real"] ∧
    (mkLimeExplainer none).class_names ≠ CLASS_NAMES ∧
    (mkLimeExplainer none).class_names.getD 1 "" = "Real" ∧
    (mkLimeExplainer none).class_names.getD 1 "" ≠ "Fake" := by
  refine ⟨rfl, by decide, rfl, by decide⟩

theorem map_fst_zip_take (l₁ : List String) (l₂ : List ℚ) :
    (l₁.zip l₂).map Prod.fst = l₁.take l₂.length := by
  induction l₁ generalizing l₂ with
  | nil => simp
  | cons x xs ih =>
      cases l₂ with
      | nil => simp
      | cons y ys => simp [ih]

/-- C2 (amended): the deployed components (classify, explain and the
pipeline-constructed LimeExplainer, all wired through config CLASS_NAMES)
use the fixed order Real, Fake with index 1 = Fake for predictions,
probability maps and explanations; only a default-constructed LimeExplainer
(no class_names argument) falls back to the order Fake, Real. -/
theorem claim_C2_theorem :
    CLASS_NAMES = ["Real", "Fake"]
    ∧ CLASS_NAMES.getD 0 "" = "Real" ∧ CLASS_NAMES.getD 1 "" = "Fake"
    ∧ (mkPipelineLimeExplainer (some CLASS_NAMES)).class_names = CLASS_NAMES
    ∧ (∀ (d : Detector) (t : String),
        (classify d t).prediction
          = CLASS_NAMES.getD
              ((d.model.predict (d.transform [d.preprocess t])).headD 0) "" ∧
        (classify d t).probabilities.map Prod.fst
          = CLASS_NAMES.take
              ((trainerPredictProba d.model
                  (d.transform [d.preprocess t])).headD []).length)
    ∧ (∀ (d : Detector) (t : String) (nf : Int),
        (predict_and_explain d t nf).predicted_class
          = CLASS_NAMES.getD (argmax ((predictFn d [t]).headD [])) "" ∧
        (predict_and_explain d t nf).probabilities.map Prod.fst
          = CLASS_NAMES.take ((predictFn d [t]).headD []).length) := by
  refine ⟨rfl, rfl, rfl, rfl, ?_, ?_⟩
  · intro d t
    exact ⟨rfl, map_fst_zip_take _ _⟩
  · intro d t nf
    exact ⟨rfl, map_fst_zip_take _ _⟩

/-! ## Claim C3 -/

/-- C3 counterexample: classify does not take the argmax of the probability
vector.  On a detector whose model predicts class 0 while its probability
row is 0.25, 0.75 (argmax index 1, name Fake), classify returns prediction
Real. -/
theorem claim_C3_counterexample :
    (trainerPredictProba demoD.model
        (demoD.transform [demoD.preprocess "this text is long enough"])).headD []
      = [1/4, 3/4] ∧
    argmax [1/4, 3/4] = 1 ∧
    CLASS_NAMES.getD 1 "" = "Fake" ∧
    (classify demoD "this text is long enough").prediction = "Real" ∧
    ("Real" : String) ≠ "Fake" := by
  refine ⟨?_, ?_, rfl, ?_, by decide⟩
  · with_unfolding_all rfl
  · with_unfolding_all rfl
  · with_unfolding_all rfl

/-- C3 (amended): predict_and_explain returns the class name at the argmax
of the probability vector of the original document and the maximum entry of
that vector as confidence; classify returns the same maximum as confidence,
but derives its predicted class from model.predict, which agrees with the
argmax name only when the model predict function is consistent with its
predict_proba. -/
theorem claim_C3_theorem :
    (∀ (d : Detector) (t : String) (nf : Int),
      (predict_and_explain d t nf).predicted_class
          = CLASS_NAMES.getD (argmax ((predictFn d [t]).headD [])) "" ∧
      (predict_and_explain d t nf).confidence
          = listMax ((predictFn d [t]).headD []) ∧
      ((predictFn d [t]).headD [] ≠ [] →
        (predict_and_explain d t nf).confidence ∈ (predictFn d [t]).headD [] ∧
        ∀ x ∈ (predictFn d [t]).headD [],
          x ≤ (predict_and_explain d t nf).confidence))
    ∧ (∀ (d : Detector) (t : String),
        (classify d t).confidence
            = listMax ((trainerPredictProba d.model
                (d.transform [d.preprocess t])).headD []) ∧
        ((d.model.predict (d.transform [d.preprocess t])).headD 0
            = argmax ((trainerPredictProba d.model
                (d.transform [d.preprocess t])).headD []) →
          (classify d t).prediction
            = CLASS_NAMES.getD
                (argmax ((trainerPredictProba d.model
                    (d.transform [d.preprocess t])).headD [])) "")) := by
  constructor
  · intro d t nf
    refine ⟨rfl, rfl, ?_⟩
    intro hne
    exact listMax_is_max ((predictFn d [t]).headD []) hne
  · intro d t
    refine ⟨rfl, ?_⟩
    intro h
    show CLASS_NAMES.getD
        ((d.model.predict (d.transform [d.preprocess t])).headD 0) "" = _
    rw [h]

/-- A detector whose model predicts the argmax class of its own
probabilities, instantiating the consistency hypothesis. -/
def agreeD : Detector :=
  { preprocess := fun s => s
    transform := fun ts => ts.map (fun _ => [1])
    model :=
      { hasPredictProba := true
        predict_proba := fun X => X.map (fun _ => [1/4, 3/4])
        predict := fun X => X.map (fun _ => 1) }
    limeAsList := fun _ _ => [] }

/-- C3 witness: on a consistent detector the confidence is the maximum
probability and classify names the argmax class. -/
theorem claim_C3_witness :
    ((predict_and_explain agreeD "demo text" 10).confidence
        ∈ (predictFn agreeD ["demo text"]).headD [] ∧
      ∀ x ∈ (predictFn agreeD ["demo text"]).headD [],
        x ≤ (predict_and_explain agreeD "demo text" 10).confidence)
    ∧ (classify agreeD "demo text").prediction
        = CLASS_NAMES.getD
            (argmax ((trainerPredictProba agreeD.model
                (agreeD.transform [agreeD.preprocess "demo text"])).headD [])) "" :=
  ⟨(claim_C3_theorem.1 agreeD "demo text" 10).2.2 (by simp [predictFn, agreeD]),
   (claim_C3_theorem.2 agreeD "demo text").2 (by with_unfolding_all rfl)⟩

/-! ## Claim C7 -/

/-- C7: in every successful classify and explain response, every float
equals the corresponding computed value rounded to 4 decimal places: the
confidence, each probability entry, and each explanation word score. -/
theorem claim_C7_theorem :
    (∀ (d : Detector) (raw : String) (r : ClassifyResponse),
        classify_news d (some raw) = ApiResp.ok r →
        r.prediction = (classify d (pyStrip raw)).prediction ∧
        r.confidence = round4 (classify d (pyStrip raw)).confidence ∧
        r.probabilities
          = (classify d (pyStrip raw)).probabilities.map
              (fun p => (p.1, round4 p.2)))
    ∧ (∀ (d : Detector) (raw : String) (nf : Option Int) (r : ExplainResponse),
        explain_prediction d (some raw) nf = ApiResp.ok r →
        r.confidence
            = round4 (predict_and_explain d (pyStrip raw) (nf.getD 10)).confidence ∧
        r.probabilities
            = (predict_and_explain d (pyStrip raw) (nf.getD 10)).probabilities.map
                (fun p => (p.1, round4 p.2)) ∧
        r.explanation.map ExplanationEntry.score
            = (predict_and_explain d (pyStrip raw) (nf.getD 10)).word_importance.map
                (fun ws => round4 ws.2)) := by
  constructor
  · intro d raw r h
    simp only [classify_news] at h
    split at h
    · exact ApiResp.noConfusion h
    · cases h
      exact ⟨rfl, rfl, rfl⟩
  · intro d raw nf r h
    simp only [explain_prediction] at h
    split at h
    · exact ApiResp.noConfusion h
    · cases h
      refine ⟨rfl, rfl, ?_⟩
      rw [List.map_map]
      rfl

/-- Concrete response of the classify handler on demoD, used as witness data. -/
def c7resp : ClassifyResponse :=
  { prediction := "Real"
    confidence := 3/4
    probabilities := [("Real", 1/4), ("Fake", 3/4)] }

/-- C7 witness: the rounding relations at a concrete classify call and a
concrete explain call. -/
theorem claim_C7_witness :
    (c7resp.prediction = (classify demoD (pyStrip "aaaaaaaaaaaa")).prediction ∧
      c7resp.confidence
        = round4 (classify demoD (pyStrip "aaaaaaaaaaaa")).confidence ∧
      c7resp.probabilities
        = (classify demoD (pyStrip "aaaaaaaaaaaa")).probabilities.map
            (fun p => (p.1, round4 p.2)))
    ∧ (c1resp.confidence
        = round4 (predict_and_explain demoD (pyStrip "aaaaaaaaaaaa")
            ((some (10:Int)).getD 10)).confidence ∧
      c1resp.probabilities
        = (predict_and_explain demoD (pyStrip "aaaaaaaaaaaa")
            ((some (10:Int)).getD 10)).probabilities.map
              (fun p => (p.1, round4 p.2)) ∧
      c1resp.explanation.map ExplanationEntry.score
        = (predict_and_explain demoD (pyStrip "aaaaaaaaaaaa")
            ((some (10:Int)).getD 10)).word_importance.map
              (fun ws => round4 ws.2)) :=
  ⟨claim_C7_theorem.1 demoD "aaaaaaaaaaaa" c7resp (by with_unfolding_all rfl),
   claim_C7_theorem.2 demoD "aaaaaaaaaaaa" (some 10) c1resp
     (by with_unfolding_all rfl)⟩

/-! ## Claim C9 -/

/-- C9: a batch request with a non-empty list of at most 100 items yields
exactly one result entry per input item, in input order; a valid string of
raw length at least 10 gets a prediction, any other item gets a null
prediction with an error note; a list longer than 100 is rejected with a
400 client error before any classification. -/
theorem claim_C9_theorem :
    ∀ (d : Detector) (items : List BatchItem),
      (100 < items.length →
        batch_classify d (some items)
          = ApiResp.err 400 "Maximum 100 articles per batch")
      ∧ (items ≠ [] → items.length ≤ 100 →
          batch_classify d (some items)
            = ApiResp.ok { results := items.map (batchEntry d)
                           total := items.length } ∧
          (items.map (batchEntry d)).length = items.length ∧
          ∀ it ∈ items,
            (isValidBatchItem it = true →
              ((batchEntry d it).prediction).isSome = true) ∧
            (isValidBatchItem it = false →
              (batchEntry d it).prediction = none ∧
              (batchEntry d it).error = some "Invalid or too short text")) := by
  intro d items
  constructor
  · intro h
    have h0 : ¬ items.length = 0 := by omega
    simp [batch_classify, h0, h]
  · intro hne hle
    have h0 : ¬ items.length = 0 := by
      simpa [List.length_eq_zero] using hne
    have h1 : ¬ 100 < items.length := by omega
    refine ⟨by simp [batch_classify, h0, h1], by simp, ?_⟩
    intro it _
    constructor
    · intro hv
      cases it with
      | str s =>
          have hs : 10 ≤ s.length := by simpa [isValidBatchItem] using hv
          simp [batchEntry, hs]
      | nonString rep => simp [isValidBatchItem] at hv
    · intro hv
      cases it with
      | str s =>
          have hs : ¬ 10 ≤ s.length := by simpa [isValidBatchItem] using hv
          simp [batchEntry, hs]
      | nonString rep => simp [batchEntry]

/-- Concrete batch input: a valid string, a too-short string, a non-string. -/
def wItems : List BatchItem :=
  [.str "this is a long text", .str "shrt", .nonString "42"]

/-- C9 witness: the batch behaviour at a concrete three-item batch. -/
theorem claim_C9_witness :
    batch_classify demoD (some wItems)
      = ApiResp.ok { results := wItems.map (batchEntry demoD)
                     total := wItems.length } ∧
    ((batchEntry demoD (BatchItem.str "this is a long text")).prediction).isSome
      = true ∧
    (batchEntry demoD (BatchItem.str "shrt")).prediction = none :=
  ⟨((claim_C9_theorem demoD wItems).2 (by decide) (by decide)).1,
   (((claim_C9_theorem demoD wItems).2 (by decide) (by decide)).2.2
      (BatchItem.str "this is a long text") (by decide)).1 (by decide),
   ((((claim_C9_theorem demoD wItems).2 (by decide) (by decide)).2.2
      (BatchItem.str "shrt") (by decide)).2 (by decide)).1⟩

/-! ## Claim C10 -/

/-- C10: when the wrapped model lacks predict_proba, the explainer
prediction function returns one row per text (given that the model returns
one label per text), and every row is one-hot: width k = number of classes,
entry 1 at the predicted index, 0 elsewhere, summing to 1. -/
theorem claim_C10_theorem :
    ∀ (d : Detector) (texts : List String),
      d.model.hasPredictProba = false →
      (d.model.predict (d.transform (texts.map d.preprocess))).length
        = texts.length →
      (∀ p ∈ d.model.predict (d.transform (texts.map d.preprocess)),
          p < CLASS_NAMES.length) →
      (predictFn d texts).length = texts.length ∧
      predictFn d texts
        = (d.model.predict (d.transform (texts.map d.preprocess))).map
            (oneHotRow CLASS_NAMES.length) ∧
      ∀ row ∈ predictFn d texts,
        row.length = CLASS_NAMES.length ∧
        row.sum = 1 ∧
        ∃ p, p < CLASS_NAMES.length ∧ row = oneHotRow CLASS_NAMES.length p ∧
          row.getD p 0 = 1 ∧
          ∀ j < CLASS_NAMES.length, j ≠ p → row.getD j 0 = 0 := by
  intro d texts hno hlen hin
  have hfn : predictFn d texts
      = (d.model.predict (d.transform (texts.map d.preprocess))).map
          (oneHotRow CLASS_NAMES.length) := by
    simp [predictFn, hno, oneHotMatrix]
  refine ⟨by rw [hfn]; simp [hlen], hfn, ?_⟩
  intro row hrow
  rw [hfn] at hrow
  rcases List.mem_map.mp hrow with ⟨p, hp, hrowp⟩
  have hpk : p < CLASS_NAMES.length := hin p hp
  refine ⟨?_, ?_, p, hpk, hrowp.symm, ?_, ?_⟩
  · rw [← hrowp]
    exact oneHotRow_length _ _
  · rw [← hrowp]
    exact oneHotRow_sum _ _ hpk
  · rw [← hrowp, oneHotRow_getD _ _ _ hpk]
    simp
  · intro j hj hjp
    rw [← hrowp, oneHotRow_getD _ _ _ hj]
    simp [hjp]

/-- C10 witness: concrete one-text batch against the no-predict_proba
detector. -/
theorem claim_C10_witness :
    (predictFn noProbaD ["some long text"]).length = 1 ∧
    predictFn noProbaD ["some long text"]
      = (noProbaD.model.predict (noProbaD.transform
          (["some long text"].map noProbaD.preprocess))).map
          (oneHotRow CLASS_NAMES.length) :=
  ⟨(claim_C10_theorem noProbaD ["some long text"] rfl (by decide) (by decide)).1,
   (claim_C10_theorem noProbaD ["some long text"] rfl (by decide)
      (by decide)).2.1⟩
